import Mathlib

/-!
Shallow embedding of the heartbeat integrity-comparison engine of
`sponsa_backend/devices/views.py` (lines 1376–1831): the tracked-field
vocabulary, severity classifier, comparison-value normalizer, IMEI and RAM
comparators, registration-baseline resolver, and the orchestrator
`_compare_heartbeat_with_registration`.

Python JSON-ish values are modelled by the inductive type `Value`
(`None`, `str`, `bool`, `int`, `list`, `tuple`, `dict`).  Python string
operations (`lower`, `upper`, `strip`, `replace(" ", "")`) are modelled on
ASCII characters, matching CPython behaviour on the ASCII range.  Python
floats are modelled as exact rationals: every number the engine extracts is
a short decimal literal, on which IEEE-754 doubles round-trip exactly.
-/

/-- A Python value as it appears in heartbeat payloads and history records. -/
inductive Value where
  | none
  | str (s : String)
  | bool (b : Bool)
  | int (n : Int)
  | list (xs : List Value)
  | tup (xs : List Value)
  | dict (kvs : List (String × Value))
deriving Repr

/-- Python dict lookup (`d.get(k)` / `k in d`), with first-match semantics. -/
def lookupVal (m : List (String × Value)) (k : String) : Option Value :=
  match m with
  | [] => Option.none
  | (k', v) :: rest => if k' == k then some v else lookupVal rest k

/-- Python truthiness (`bool(v)`). -/
def pyTruthy : Value → Bool
  | .none => false
  | .str s => !(s == "")
  | .bool b => b
  | .int n => !(n == 0)
  | .list xs => !xs.isEmpty
  | .tup xs => !xs.isEmpty
  | .dict kvs => !kvs.isEmpty

mutual
/-- Python `==` on values: structural, with `bool`/`int` cross-equality
(`True == 1`, `False == 0`); different container kinds never compare equal. -/
def pyEq : Value → Value → Bool
  | .none, .none => true
  | .bool a, .bool b => a == b
  | .bool a, .int n => (if a then (1 : Int) else 0) == n
  | .int n, .bool a => n == (if a then (1 : Int) else 0)
  | .int m, .int n => m == n
  | .str a, .str b => a == b
  | .list xs, .list ys => pyEqList xs ys
  | .tup xs, .tup ys => pyEqList xs ys
  | .dict a, .dict b => a.length == b.length && pyEqDict a b
  | _, _ => false

def pyEqList : List Value → List Value → Bool
  | [], [] => true
  | x :: xs, y :: ys => pyEq x y && pyEqList xs ys
  | _, _ => false

def pyEqDict : List (String × Value) → List (String × Value) → Bool
  | [], _ => true
  | (k, v) :: rest, b =>
    (match lookupVal b k with
     | some w => pyEq v w
     | Option.none => false) && pyEqDict rest b
end

/-- Characters Python's `str.strip()` and `\s` treat as whitespace (ASCII). -/
def isPySpace (c : Char) : Bool :=
  c.toNat == 32 || c.toNat == 9 || c.toNat == 10 ||
  c.toNat == 13 || c.toNat == 11 || c.toNat == 12

/-- Python `str.lower()` on the ASCII range. -/
def pyLowerL (l : List Char) : List Char := l.map Char.toLower

/-- Python `str.upper()` on the ASCII range. -/
def pyUpperL (l : List Char) : List Char := l.map Char.toUpper

/-- Python `str.strip()`: drop leading and trailing whitespace. -/
def pyStripL (l : List Char) : List Char :=
  ((l.dropWhile isPySpace).reverse.dropWhile isPySpace).reverse

/-- Python `str.replace(" ", "")`: remove every space character. -/
def removeSpacesL (l : List Char) : List Char := l.filter (fun c => !(c == ' '))

def pyLower (s : String) : String := String.mk (pyLowerL s.data)

def pyUpper (s : String) : String := String.mk (pyUpperL s.data)

def pyStrip (s : String) : String := String.mk (pyStripL s.data)

def removeSpaces (s : String) : String := String.mk (removeSpacesL s.data)

/-- Substring test (Python `sub in s`), as a contiguous-run search. -/
def strContainsSub (s sub : String) : Bool :=
  s.data.tails.any (fun t => sub.data.isPrefixOf t)

/-- Escape one character inside a Python string repr with quote character `q`.
Non-printable codepoints other than tab/newline/return are left unescaped:
the model covers printable-ASCII content. -/
def pyReprEscChar (q c : Char) : List Char :=
  if c == '\\' then ['\\', '\\']
  else if c == q then ['\\', q]
  else if c == '\n' then ['\\', 'n']
  else if c == '\r' then ['\\', 'r']
  else if c == '\t' then ['\\', 't']
  else [c]

/-- Python `repr(s)` for a string: single quotes unless the string contains a
single quote and no double quote. -/
def pyReprStr (s : String) : String :=
  let q : Char := if strContainsSub s "'" && !(strContainsSub s "\"") then '"' else '\''
  String.mk (q :: (s.data.flatMap (pyReprEscChar q) ++ [q]))

mutual
/-- Python `str(v)`. -/
def pyStr : Value → String
  | .none => "None"
  | .str s => s
  | .bool b => if b then "True" else "False"
  | .int n => toString n
  | .list xs => "[" ++ pyReprJoin xs ++ "]"
  | .tup xs => "(" ++ pyReprJoin xs ++ (if xs.length == 1 then ",)" else ")")
  | .dict kvs => "\x7b" ++ pyReprDictJoin kvs ++ "\x7d"

/-- Python `repr(v)`. -/
def pyRepr : Value → String
  | .str s => pyReprStr s
  | .none => "None"
  | .bool b => if b then "True" else "False"
  | .int n => toString n
  | .list xs => "[" ++ pyReprJoin xs ++ "]"
  | .tup xs => "(" ++ pyReprJoin xs ++ (if xs.length == 1 then ",)" else ")")
  | .dict kvs => "\x7b" ++ pyReprDictJoin kvs ++ "\x7d"

def pyReprJoin : List Value → String
  | [] => ""
  | [x] => pyRepr x
  | x :: rest => pyRepr x ++ ", " ++ pyReprJoin rest

def pyReprDictJoin : List (String × Value) → String
  | [] => ""
  | [(k, v)] => pyReprStr k ++ ": " ++ pyRepr v
  | (k, v) :: rest => pyReprStr k ++ ": " ++ pyRepr v ++ ", " ++ pyReprDictJoin rest
end

/-- Storage-unit test of `_normalize_for_comparison`:
`any(unit in value.upper() for unit in ["GB", "MB", "TB", "KB"])`. -/
def hasUnitToken (s : String) : Bool :=
  ["GB", "MB", "TB", "KB"].any (fun u => strContainsSub (pyUpper s) u)

/-- List-item normalization inside `_normalize_for_comparison`:
`item.strip().lower()` for strings, else `str(item).lower()`. -/
def normListItem (v : Value) : String :=
  match v with
  | .str s => pyLower (pyStrip s)
  | v => pyLower (pyStr v)

/-- Python `sorted` on a list of strings (code-point lexicographic).  Equal
strings are indistinguishable, so any correct sort yields `sorted`'s output;
insertion sort is used because it reduces definitionally. -/
def pySortStrs (l : List String) : List String :=
  l.insertionSort (fun a b => a ≤ b)

mutual
/-- `_normalize_for_comparison` (views.py:1448): `None` passes through; lists
become sorted tuples of lower-cased trimmed strings; strings containing a
storage unit lose their spaces and are lower-cased, other strings are
lower-cased and stripped; dict values are normalized recursively; anything
else (bool, int, tuple) is returned as-is. -/
def _normalize_for_comparison : Value → Value
  | .none => .none
  | .list xs => .tup ((pySortStrs (xs.map normListItem)).map Value.str)
  | .str s =>
    if hasUnitToken s then .str (pyLower (removeSpaces s))
    else .str (pyStrip (pyLower s))
  | .dict kvs => .dict (normalizeDictVals kvs)
  | .bool b => .bool b
  | .int n => .int n
  | .tup xs => .tup xs

def normalizeDictVals : List (String × Value) → List (String × Value)
  | [] => []
  | (k, v) :: rest => (k, _normalize_for_comparison v) :: normalizeDictVals rest
end

/-- `HEARTBEAT_TRACKED_FIELDS` (views.py:1376). -/
def HEARTBEAT_TRACKED_FIELDS : List String :=
  ["device_imeis", "serial_number", "installed_ram", "total_storage",
   "is_device_rooted", "is_usb_debugging_enabled", "is_developer_mode_enabled",
   "is_bootloader_unlocked", "is_custom_rom"]

/-- `HIGH_SEVERITY_FIELDS` (views.py:1389). -/
def HIGH_SEVERITY_FIELDS : List String :=
  ["serial_number", "device_imeis", "is_device_rooted",
   "is_usb_debugging_enabled", "is_developer_mode_enabled",
   "is_bootloader_unlocked"]

/-- `MEDIUM_SEVERITY_FIELDS` (views.py:1399). -/
def MEDIUM_SEVERITY_FIELDS : List String :=
  ["installed_ram", "total_storage", "is_custom_rom"]

/-- `_get_mismatch_reason` (views.py:1417): fixed value-free reason per field,
with a generic fallback for unknown fields. -/
def _get_mismatch_reason (field : String) : String :=
  if field == "serial_number" then "Device serial number mismatch detected"
  else if field == "device_imeis" then "Device IMEI mismatch detected"
  else if field == "is_device_rooted" then "Device rooting status changed"
  else if field == "is_usb_debugging_enabled" then "USB debugging status changed"
  else if field == "is_developer_mode_enabled" then "Developer mode status changed"
  else if field == "is_bootloader_unlocked" then "Bootloader unlock status changed"
  else if field == "is_custom_rom" then "Custom ROM status changed"
  else if field == "installed_ram" then "Device RAM configuration changed"
  else if field == "total_storage" then "Device storage configuration changed"
  else "Field '" ++ field ++ "' value changed"

/-- `_calculate_severity` (views.py:1435): HIGH for the security-critical set,
MEDIUM for hardware/config fields and any unknown field. -/
def _calculate_severity (field : String) : String :=
  if HIGH_SEVERITY_FIELDS.contains field then "high"
  else if MEDIUM_SEVERITY_FIELDS.contains field then "medium"
  else "medium"

/-- Python iteration over a value (`for x in v`): list and tuple elements, and
the characters of a string.  Non-iterable values yield nothing; the engine
only ever iterates values it has already found truthy. -/
def pyIter : Value → List Value
  | .list xs => xs
  | .tup xs => xs
  | .str s => s.data.map (fun c => Value.str (String.mk [c]))
  | _ => []

/-- `_compare_imei_lists` (views.py:1487): skip when either side is falsy;
mismatch when some current IMEI is absent from the baseline; otherwise match,
with a security warning exactly when the IMEI count decreased.  The source's
early-return loop over `current_normalized` is rendered as an `all` check.
The `missing_imeis` list is computed by the source but never used in the
warning text; it is kept here to mirror the source. -/
def _compare_imei_lists (registered_imeis current_imeis : Value) :
    Bool × Option String :=
  if !(pyTruthy registered_imeis) || !(pyTruthy current_imeis) then
    (true, Option.none)
  else
    let registered_normalized :=
      (pyIter registered_imeis).map (fun v => pyLower (pyStrip (pyStr v)))
    let current_normalized :=
      (pyIter current_imeis).map (fun v => pyLower (pyStrip (pyStr v)))
    if !(current_normalized.all (fun c => registered_normalized.contains c)) then
      (false, Option.none)
    else if current_normalized.length < registered_normalized.length then
      let missing_count := registered_normalized.length - current_normalized.length
      let _missing_imeis :=
        registered_normalized.filter (fun i => !(current_normalized.contains i))
      let rCount := registered_normalized.length
      let cCount := current_normalized.length
      (true, some ("⚠️ SECURITY WARNING: IMEI count decreased from " ++
        toString rCount ++ " to " ++ toString cCount ++ ". Missing " ++
        toString missing_count ++
        " IMEI(s). This could be legitimate SIM removal OR an attempt to hide SIM swap. Baseline had " ++
        toString rCount ++ " IMEI(s), now reporting " ++ toString cCount ++
        ". Manual review recommended."))
    else
      (true, Option.none)

/-- Match of the regex `(\d+\.?\d*)\s*GB` (case-insensitive) anchored at the
start of `cs`, returning the captured group.  Backtracking never changes the
outcome for this pattern (shorter `\d+`/`\d*`/`\.?`/`\s*` choices always leave
a digit, dot or whitespace character where `G` is required), so the greedy
parse below is exactly the regex semantics. -/
def matchRamAt (cs : List Char) : Option (List Char) :=
  match cs with
  | [] => Option.none
  | c :: _ =>
    if !c.isDigit then Option.none
    else
      let ds := cs.takeWhile Char.isDigit
      let rest := cs.dropWhile Char.isDigit
      let (grp, rest2) :=
        match rest with
        | '.' :: r => (ds ++ '.' :: r.takeWhile Char.isDigit, r.dropWhile Char.isDigit)
        | _ => (ds, rest)
      let rest3 := rest2.dropWhile isPySpace
      match rest3 with
      | g :: b :: _ =>
        if (g == 'G' || g == 'g') && (b == 'B' || b == 'b') then some grp
        else Option.none
      | _ => Option.none

/-- `re.search` for the pattern above: leftmost match wins. -/
def searchRam : List Char → Option (List Char)
  | [] => Option.none
  | c :: cs =>
    match matchRamAt (c :: cs) with
    | some g => some g
    | Option.none => searchRam cs

def digitsToNat (l : List Char) : Nat :=
  l.foldl (fun a c => a * 10 + (c.toNat - 48)) 0

/-- Value of a captured group `digits[.digits]` as an exact rational. -/
def parseRamGroup (g : List Char) : Rat :=
  let intPart := g.takeWhile Char.isDigit
  let rest := g.dropWhile Char.isDigit
  let frac := match rest with | '.' :: r => r | _ => []
  (digitsToNat intPart : Rat) + (digitsToNat frac : Rat) / ((10 : Rat) ^ frac.length)

/-- `extract_ram_gb` (views.py:1574): `None` unless the input is a string
containing a numeric-GB token; otherwise the first token's value. -/
def extract_ram_gb : Value → Option Rat
  | .str s => (searchRam s.data).map parseRamGroup
  | _ => Option.none

/-- Smallest number of decimal digits (≤ 17) after the point needed to write
`q` exactly, when it is a decimal number. -/
def decDigits (q : Rat) : Option Nat :=
  (List.range 18).find? (fun k => (q * (10 : Rat) ^ k).den == 1)

def pyFloatStrAbs (q : Rat) : String :=
  match decDigits q with
  | some 0 => toString q.num ++ ".0"
  | some (k + 1) =>
    let m := (q * (10 : Rat) ^ (k + 1)).num.toNat
    let s := toString m
    let s := String.mk (List.replicate (k + 2 - s.length) '0') ++ s
    let cut := s.length - (k + 1)
    String.mk (s.data.take cut) ++ "." ++ String.mk (s.data.drop cut)
  | Option.none => toString q.num ++ "/" ++ toString q.den

/-- Python `str(x)` for a float holding an exact short decimal (the only
floats the engine produces: regex-extracted decimals and that value minus 1),
on which IEEE-754 round-trips and `str` prints the same decimal. -/
def pyFloatStr (q : Rat) : String :=
  if q < 0 then "-" ++ pyFloatStrAbs (-q) else pyFloatStrAbs q

/-- `_compare_ram_with_tolerance` (views.py:1548): skip when either side is
falsy or fails to parse; mismatch with a value-bearing reason exactly when
the current value is below the registered value minus 1 GB. -/
def _compare_ram_with_tolerance (registered_ram current_ram : Value) :
    Bool × Option String :=
  if !(pyTruthy registered_ram) || !(pyTruthy current_ram) then (true, Option.none)
  else
    match extract_ram_gb registered_ram, extract_ram_gb current_ram with
    | some registered_gb, some current_gb =>
      let min_allowed_gb := registered_gb - 1
      if current_gb < min_allowed_gb then
        (false, some ("RAM decreased significantly: registered " ++
          pyFloatStr registered_gb ++ "GB, current " ++ pyFloatStr current_gb ++
          "GB (minimum allowed: " ++ pyFloatStr min_allowed_gb ++ "GB)"))
      else (true, Option.none)
    | _, _ => (true, Option.none)

/-- One audit-history record (`History{action, new_values, ...}`): `action` is
the event kind; `new_values` is the JSON field map, `Option.none` when null. -/
structure HistoryEntry where
  action : String
  new_values : Option (List (String × Value))

/-- The slice of a `Device` record the comparison engine reads: its type and
its audit history in stored order. -/
structure Device where
  device_type : String
  history : List HistoryEntry

/-- `_get_registration_baseline` (views.py:1406): the `new_values` of the first
`action="create"` history entry, or `{}` when there is no such entry or its
`new_values` is null/empty (Python truthiness). -/
def _get_registration_baseline (device : Device) : List (String × Value) :=
  match (device.history.filter (fun e => e.action == "create")).head? with
  | some entry =>
    match entry.new_values with
    | some nv => if nv.isEmpty then [] else nv
    | Option.none => []
  | Option.none => []

/-- One entry of the `mismatches` list: `{field, severity, reason}`. -/
structure Mismatch where
  field : String
  severity : String
  reason : String
deriving Repr, DecidableEq

/-- One entry of `comparison_details`: status plus the optional keys the
orchestrator sets on that path. -/
structure Detail where
  status : String
  severity : Option String := Option.none
  registered : Option Value := Option.none
  current : Option Value := Option.none
  reason : Option String := Option.none
  warning : Option String := Option.none
deriving Repr

/-- The dict returned by `_compare_heartbeat_with_registration`. -/
structure CompareResult where
  mismatches : List Mismatch
  high_severity_count : Nat
  medium_severity_count : Nat
  total_mismatches : Nat
  should_auto_lock : Bool
  lock_reason : Option String
  comparison_details : List (String × Detail)
  baseline_status : Option String := Option.none
deriving Repr

/-- Loop accumulator of the orchestrator's per-field loop. -/
structure CompAcc where
  mismatches : List Mismatch
  high : Nat
  med : Nat
  details : List (String × Detail)

/-- Shared mismatch-recording path of the loop body: append the mismatch,
record the detail, and bump the counter for the given severity. -/
def recordMismatch (acc : CompAcc) (field severity reason : String)
    (registered current : Value) : CompAcc :=
  { mismatches := acc.mismatches ++ [⟨field, severity, reason⟩]
    high := if severity == "high" then acc.high + 1 else acc.high
    med := if severity == "high" then acc.med else acc.med + 1
    details := acc.details ++
      [(field, { status := "mismatch", severity := some severity,
                 registered := some registered, current := some current,
                 reason := some reason })] }

/-- `MOBILE_ONLY_FIELDS` (views.py:1667). -/
def MOBILE_ONLY_FIELDS : List String :=
  ["device_imeis", "is_device_rooted", "is_usb_debugging_enabled",
   "is_developer_mode_enabled", "is_bootloader_unlocked"]

/-- `DESKTOP_SKIP_FIELDS` (views.py:1676). -/
def DESKTOP_SKIP_FIELDS : List String :=
  ["serial_number", "total_storage", "is_custom_rom"]

/-- Body of the orchestrator's `for field in HEARTBEAT_TRACKED_FIELDS` loop
(views.py:1682–1813), for one field. -/
def stepField (device_type : String) (registration_data incoming_data :
    List (String × Value)) (acc : CompAcc) (field : String) : CompAcc :=
  match lookupVal incoming_data field with
  | Option.none => acc
  | some current =>
    if (device_type == "desktop" || device_type == "laptop") &&
        MOBILE_ONLY_FIELDS.contains field then acc
    else if (device_type == "desktop" || device_type == "laptop") &&
        DESKTOP_SKIP_FIELDS.contains field then acc
    else
      let registered := (lookupVal registration_data field).getD Value.none
      if field == "device_imeis" then
        let (is_ok, warning_message) := _compare_imei_lists registered current
        if !is_ok then
          recordMismatch acc field (_calculate_severity field)
            (_get_mismatch_reason field) registered current
        else
          match warning_message with
          | some w =>
            { acc with details := acc.details ++
                [(field, { status := "matched_with_warning",
                           registered := some registered,
                           current := some current, warning := some w })] }
          | Option.none =>
            { acc with details := acc.details ++
                [(field, { status := "matched", registered := some registered,
                           current := some current })] }
      else if field == "installed_ram" &&
          (device_type == "desktop" || device_type == "laptop") then
        let (is_ok, ram_reason) := _compare_ram_with_tolerance registered current
        if !is_ok then
          recordMismatch acc field "high"
            (ram_reason.getD "Device RAM significantly decreased")
            registered current
        else
          { acc with details := acc.details ++
              [(field, { status := "matched", registered := some registered,
                         current := some current })] }
      else
        let registered_normalized := _normalize_for_comparison registered
        let current_normalized := _normalize_for_comparison current
        if pyEq registered_normalized current_normalized then
          { acc with details := acc.details ++
              [(field, { status := "matched", registered := some registered,
                         current := some current })] }
        else if !(pyTruthy registered_normalized) &&
            !(pyTruthy current_normalized) then
          { acc with details := acc.details ++
              [(field, { status := "both_empty", registered := some registered,
                         current := some current })] }
        else
          recordMismatch acc field (_calculate_severity field)
            (_get_mismatch_reason field) registered current

/-- Per-value test of the orchestrator's baseline-data check
(`v is not None and v != "" and v != []`). -/
def hasActualData (v : Value) : Bool :=
  (match v with | .none => false | _ => true) &&
  !(pyEq v (.str "")) && !(pyEq v (.list []))

/-- The two short-circuit results of the orchestrator, differing only in
`baseline_status`. -/
def emptyCompareResult (status : String) : CompareResult :=
  { mismatches := [], high_severity_count := 0, medium_severity_count := 0,
    total_mismatches := 0, should_auto_lock := false, lock_reason := Option.none,
    comparison_details := [], baseline_status := some status }

/-- `_compare_heartbeat_with_registration` (views.py:1603): resolve the
baseline, short-circuit on a missing or all-empty baseline, run the per-field
loop, then decide auto-lock from the HIGH-severity count. -/
def _compare_heartbeat_with_registration (device : Device)
    (incoming_data : List (String × Value)) : CompareResult :=
  let registration_data := _get_registration_baseline device
  if registration_data.isEmpty then emptyCompareResult "not_established"
  else if !(registration_data.any (fun kv => hasActualData kv.2)) then
    emptyCompareResult "empty_baseline"
  else
    let acc := HEARTBEAT_TRACKED_FIELDS.foldl
      (stepField device.device_type registration_data incoming_data)
      ⟨[], 0, 0, []⟩
    let should_auto_lock := acc.high > 0
    let lock_reason :=
      if should_auto_lock then
        some ("Device security compromised: " ++ String.intercalate ", "
          ((acc.mismatches.filter (fun m => m.severity == "high")).map
            (fun m => m.field)))
      else Option.none
    { mismatches := acc.mismatches, high_severity_count := acc.high,
      medium_severity_count := acc.med, total_mismatches := acc.mismatches.length,
      should_auto_lock := should_auto_lock, lock_reason := lock_reason,
      comparison_details := acc.details }

/-- A device with a single `create` history entry carrying `baseline`. -/
def mkDevice (t : String) (baseline : List (String × Value)) : Device :=
  ⟨t, [⟨"create", some baseline⟩]⟩

/-- Fixture: phone whose heartbeat differs from its baseline only in the
HIGH-severity field `is_device_rooted`. -/
def devRooted : Device :=
  mkDevice "phone" [("is_device_rooted", .bool false), ("serial_number", .str "S1")]

def incRooted : List (String × Value) :=
  [("is_device_rooted", .bool true), ("serial_number", .str "S1")]

/-- Fixture: phone whose heartbeat differs from its baseline only in the
MEDIUM-severity field `total_storage`. -/
def devStorage : Device :=
  mkDevice "phone" [("total_storage", .str "64 GB"), ("serial_number", .str "S1")]

def incStorage : List (String × Value) :=
  [("total_storage", .str "128 GB"), ("serial_number", .str "S1")]

/-- Fixture: laptop whose heartbeat reports 10.0GB of RAM against a 16.0GB
baseline (well below the 1 GB tolerance). -/
def devLaptopRam : Device := mkDevice "laptop" [("installed_ram", .str "16.0GB")]

def incLaptopRam : List (String × Value) := [("installed_ram", .str "10.0GB")]

/-- Fixture: desktop whose heartbeat carries every mobile-only and
desktop-skip field with values disagreeing with its baseline. -/
def devDesktop : Device :=
  mkDevice "desktop"
    [("device_imeis", .list [.str "A"]), ("serial_number", .str "S"),
     ("is_device_rooted", .bool false), ("is_usb_debugging_enabled", .bool false),
     ("is_developer_mode_enabled", .bool false), ("is_bootloader_unlocked", .bool false),
     ("total_storage", .str "512 GB"), ("is_custom_rom", .bool false),
     ("installed_ram", .str "16GB")]

def incDesktop : List (String × Value) :=
  [("device_imeis", .list [.str "B"]), ("serial_number", .str "T"),
   ("is_device_rooted", .bool true), ("is_usb_debugging_enabled", .bool true),
   ("is_developer_mode_enabled", .bool true), ("is_bootloader_unlocked", .bool true),
   ("total_storage", .str "1 TB"), ("is_custom_rom", .bool true),
   ("installed_ram", .str "16GB")]

/-- Fixture: phone with no history at all (baseline never established). -/
def devNoHistory : Device := ⟨"phone", []⟩

/-- Fixture: phone whose baseline has a serial number but no `total_storage`,
while the heartbeat reports one. -/
def devOneSided : Device := mkDevice "phone" [("serial_number", .str "s")]

def incOneSided : List (String × Value) := [("total_storage", .str "64GB")]

/-- Loop invariant for the counting and reason-shape claims. -/
def accInv (acc : CompAcc) : Prop :=
  acc.high + acc.med = acc.mismatches.length ∧
  ∀ m ∈ acc.mismatches, (m.severity = "high" ∨ m.severity = "medium") ∧
    (m.field ≠ "installed_ram" → m.reason = _get_mismatch_reason m.field)

/-- Key lookup in an association-list rendering of a Python dict. -/
def lookupKey {α : Type} (m : List (String × α)) (k : String) : Option α :=
  match m with
  | [] => Option.none
  | (k', v) :: rest => if k' == k then some v else lookupKey rest k
theorem calcSeverity_high_or_medium (f : String) :
    _calculate_severity f = "high" ∨ _calculate_severity f = "medium" := by
  unfold _calculate_severity
  split
  · exact Or.inl rfl
  · split
    · exact Or.inr rfl
    · exact Or.inr rfl

/-- Every iteration of the orchestrator loop either only records a detail
keyed by the processed field (possibly nothing at all), or runs the shared
mismatch-recording path for that field with a well-formed severity and, for
every field other than `installed_ram`, the fixed classifier outputs. -/
theorem stepField_shape (dt : String) (rd inc : List (String × Value))
    (acc : CompAcc) (f : String) :
    (∃ dl : List (String × Detail), (∀ kv ∈ dl, kv.1 = f) ∧
      stepField dt rd inc acc f = { acc with details := acc.details ++ dl }) ∨
    (∃ sev reason r c, (sev = "high" ∨ sev = "medium") ∧
      (f ≠ "installed_ram" → sev = _calculate_severity f ∧
        reason = _get_mismatch_reason f) ∧
      stepField dt rd inc acc f = recordMismatch acc f sev reason r c) := by
  unfold stepField
  cases hinc : lookupVal inc f with
  | none =>
    exact Or.inl ⟨[], by simp, by simp⟩
  | some current =>
    simp only []
    split
    · exact Or.inl ⟨[], by simp, by simp⟩
    split
    · exact Or.inl ⟨[], by simp, by simp⟩
    split
    · -- device_imeis branch
      next hf =>
      cases himei : _compare_imei_lists ((lookupVal rd f).getD Value.none) current with
      | mk is_ok warning =>
        cases is_ok with
        | false =>
          refine Or.inr ⟨_calculate_severity f, _get_mismatch_reason f,
            (lookupVal rd f).getD Value.none, current,
            calcSeverity_high_or_medium f, fun _ => ⟨rfl, rfl⟩, ?_⟩
          simp [himei]
        | true =>
          cases warning with
          | some w =>
            refine Or.inl ⟨[(f, Detail.mk "matched_with_warning" Option.none
              (some ((lookupVal rd f).getD Value.none)) (some current)
              Option.none (some w))], by simp, ?_⟩
            simp [himei]
          | none =>
            refine Or.inl ⟨[(f, Detail.mk "matched" Option.none
              (some ((lookupVal rd f).getD Value.none)) (some current)
              Option.none Option.none)], by simp, ?_⟩
            simp [himei]
    split
    · -- installed_ram (desktop/laptop) branch
      next hf hram =>
      have hfr : f = "installed_ram" :=
        eq_of_beq ((Bool.and_eq_true _ _).mp hram).1
      cases hramc : _compare_ram_with_tolerance ((lookupVal rd f).getD Value.none) current with
      | mk is_ok ram_reason =>
        cases is_ok with
        | false =>
          refine Or.inr ⟨"high", ram_reason.getD "Device RAM significantly decreased",
            (lookupVal rd f).getD Value.none, current,
            Or.inl rfl, fun hne => absurd hfr hne, ?_⟩
          simp [hramc]
        | true =>
          refine Or.inl ⟨[(f, Detail.mk "matched" Option.none
            (some ((lookupVal rd f).getD Value.none)) (some current)
            Option.none Option.none)], by simp, ?_⟩
          simp [hramc]
    · -- exact-match branch
      next hf hram =>
      split
      · exact Or.inl ⟨[(f, Detail.mk "matched" Option.none
          (some ((lookupVal rd f).getD Value.none)) (some current)
          Option.none Option.none)], by simp, by simp⟩
      split
      · exact Or.inl ⟨[(f, Detail.mk "both_empty" Option.none
          (some ((lookupVal rd f).getD Value.none)) (some current)
          Option.none Option.none)], by simp, by simp⟩
      · exact Or.inr ⟨_calculate_severity f, _get_mismatch_reason f,
          (lookupVal rd f).getD Value.none, current,
          calcSeverity_high_or_medium f, fun _ => ⟨rfl, rfl⟩, by simp⟩

theorem stepField_mismatches_mono (dt : String) (rd inc : List (String × Value))
    (acc : CompAcc) (f : String) :
    ∀ m ∈ acc.mismatches, m ∈ (stepField dt rd inc acc f).mismatches := by
  intro m hm
  rcases stepField_shape dt rd inc acc f with ⟨dl, _, heq⟩ | ⟨sev, reason, r, c, _, _, heq⟩
  · rw [heq]; exact hm
  · rw [heq]; exact List.mem_append_left _ hm

theorem foldl_mismatches_mono (dt : String) (rd inc : List (String × Value)) :
    ∀ (l : List String) (acc : CompAcc) (m : Mismatch), m ∈ acc.mismatches →
      m ∈ (l.foldl (stepField dt rd inc) acc).mismatches := by
  intro l
  induction l with
  | nil => intro acc m hm; exact hm
  | cons g t ih =>
    intro acc m hm
    exact ih _ m (stepField_mismatches_mono dt rd inc acc g m hm)

theorem stepField_accInv (dt : String) (rd inc : List (String × Value))
    (acc : CompAcc) (f : String) (h : accInv acc) :
    accInv (stepField dt rd inc acc f) := by
  rcases stepField_shape dt rd inc acc f with ⟨dl, _, heq⟩ |
    ⟨sev, reason, r, c, hsev, hrsn, heq⟩
  · rw [heq]; exact h
  · rw [heq]
    obtain ⟨hcount, hmem⟩ := h
    constructor
    · simp only [recordMismatch, List.length_append, List.length_cons,
        List.length_nil]
      rcases hsev with hs | hs <;> subst hs <;> simp <;> omega
    · intro m hm
      simp only [recordMismatch, List.mem_append, List.mem_singleton] at hm
      rcases hm with hm | hm
      · exact hmem m hm
      · subst hm
        refine ⟨hsev, fun hne => ?_⟩
        simp only at hne ⊢
        exact ((hrsn hne).2)

theorem foldl_accInv (dt : String) (rd inc : List (String × Value)) :
    ∀ (l : List String) (acc : CompAcc), accInv acc →
      accInv (l.foldl (stepField dt rd inc) acc) := by
  intro l
  induction l with
  | nil => intro acc h; exact h
  | cons g t ih => intro acc h; exact ih _ (stepField_accInv dt rd inc acc g h)

/-- C9: every comparison result satisfies `high + medium = total = |mismatches|`,
every mismatch severity is exactly "high" or "medium", and the severity
classifier is total, defaulting unknown fields to "medium". -/
theorem c9_counting_invariant (device : Device) (incoming : List (String × Value)) :
    (_compare_heartbeat_with_registration device incoming).high_severity_count +
      (_compare_heartbeat_with_registration device incoming).medium_severity_count =
      (_compare_heartbeat_with_registration device incoming).total_mismatches ∧
    (_compare_heartbeat_with_registration device incoming).total_mismatches =
      (_compare_heartbeat_with_registration device incoming).mismatches.length ∧
    (∀ m ∈ (_compare_heartbeat_with_registration device incoming).mismatches,
      m.severity = "high" ∨ m.severity = "medium") ∧
    (∀ f, ¬ f ∈ HIGH_SEVERITY_FIELDS → _calculate_severity f = "medium") := by
  have hclass : ∀ f, ¬ f ∈ HIGH_SEVERITY_FIELDS → _calculate_severity f = "medium" := by
    intro f hf
    unfold _calculate_severity
    rw [if_neg (by simpa using hf)]
    split <;> rfl
  unfold _compare_heartbeat_with_registration
  dsimp only
  split
  · exact ⟨rfl, rfl, by simp [emptyCompareResult], hclass⟩
  split
  · exact ⟨rfl, rfl, by simp [emptyCompareResult], hclass⟩
  · have hinv := foldl_accInv device.device_type (_get_registration_baseline device)
      incoming HEARTBEAT_TRACKED_FIELDS ⟨[], 0, 0, []⟩ ⟨rfl, by simp [accInv]⟩
    exact ⟨hinv.1, rfl, fun m hm => (hinv.2 m hm).1, hclass⟩

/-- C9 witness: the counting invariant applied to the rooted-phone fixture,
whose single mismatch is HIGH. -/
theorem c9_counting_invariant_witness :
    (Mismatch.mk "is_device_rooted" "high" "Device rooting status changed").severity =
      "high" ∨
    (Mismatch.mk "is_device_rooted" "high" "Device rooting status changed").severity =
      "medium" :=
  (c9_counting_invariant devRooted incRooted).2.2.1
    (Mismatch.mk "is_device_rooted" "high" "Device rooting status changed")
    (by with_unfolding_all decide)

/-- C2: when the registration baseline is absent or every value in it is
null, empty-string or empty-list, the comparison short-circuits with zero
mismatches, zero severity counts, no auto-lock, no per-field details, and a
baseline status of "not_established" or "empty_baseline". -/
theorem c2_empty_baseline_short_circuit (device : Device)
    (incoming : List (String × Value))
    (h : ∀ kv ∈ _get_registration_baseline device,
      kv.2 = Value.none ∨ kv.2 = Value.str "" ∨ kv.2 = Value.list []) :
    (_compare_heartbeat_with_registration device incoming).mismatches = [] ∧
    (_compare_heartbeat_with_registration device incoming).high_severity_count = 0 ∧
    (_compare_heartbeat_with_registration device incoming).medium_severity_count = 0 ∧
    (_compare_heartbeat_with_registration device incoming).total_mismatches = 0 ∧
    (_compare_heartbeat_with_registration device incoming).should_auto_lock = false ∧
    (_compare_heartbeat_with_registration device incoming).comparison_details = [] ∧
    ((_compare_heartbeat_with_registration device incoming).baseline_status =
        some "not_established" ∨
      (_compare_heartbeat_with_registration device incoming).baseline_status =
        some "empty_baseline") := by
  have hno : (_get_registration_baseline device).any
      (fun kv => hasActualData kv.2) = false := by
    rw [List.any_eq_false]
    intro kv hkv
    rcases h kv hkv with h1 | h1 | h1 <;> rw [h1] <;> simp [hasActualData, pyEq, pyEqList]
  unfold _compare_heartbeat_with_registration
  dsimp only
  by_cases he : (_get_registration_baseline device).isEmpty
  · rw [if_pos he]
    exact ⟨rfl, rfl, rfl, rfl, rfl, rfl, Or.inl rfl⟩
  · rw [if_neg he, if_pos (by rw [hno]; rfl)]
    exact ⟨rfl, rfl, rfl, rfl, rfl, rfl, Or.inr rfl⟩

/-- C2 witness: a device with no history at all short-circuits with the
empty result. -/
theorem c2_empty_baseline_short_circuit_witness :
    (_compare_heartbeat_with_registration devNoHistory
      [("serial_number", Value.str "x")]).mismatches = [] ∧
    (_compare_heartbeat_with_registration devNoHistory
      [("serial_number", Value.str "x")]).high_severity_count = 0 ∧
    (_compare_heartbeat_with_registration devNoHistory
      [("serial_number", Value.str "x")]).medium_severity_count = 0 ∧
    (_compare_heartbeat_with_registration devNoHistory
      [("serial_number", Value.str "x")]).total_mismatches = 0 ∧
    (_compare_heartbeat_with_registration devNoHistory
      [("serial_number", Value.str "x")]).should_auto_lock = false ∧
    (_compare_heartbeat_with_registration devNoHistory
      [("serial_number", Value.str "x")]).comparison_details = [] ∧
    ((_compare_heartbeat_with_registration devNoHistory
        [("serial_number", Value.str "x")]).baseline_status =
        some "not_established" ∨
      (_compare_heartbeat_with_registration devNoHistory
        [("serial_number", Value.str "x")]).baseline_status =
        some "empty_baseline") :=
  c2_empty_baseline_short_circuit devNoHistory [("serial_number", Value.str "x")]
    (fun kv hkv => absurd hkv (List.not_mem_nil kv))

/-- C1: `should_auto_lock` holds exactly when `high_severity_count > 0`; when
it does, `lock_reason` is the single comma-joined listing of every
HIGH-severity mismatched field; the rooted-phone fixture (differing only in
`is_device_rooted`) locks and names that field, while the storage fixture
(differing only in `total_storage`) stays unlocked. -/
theorem c1_auto_lock_iff_high (device : Device) (incoming : List (String × Value)) :
    ((_compare_heartbeat_with_registration device incoming).should_auto_lock = true ↔
      (_compare_heartbeat_with_registration device incoming).high_severity_count > 0) ∧
    ((_compare_heartbeat_with_registration device incoming).should_auto_lock = true →
      (_compare_heartbeat_with_registration device incoming).lock_reason =
        some ("Device security compromised: " ++ String.intercalate ", "
          (((_compare_heartbeat_with_registration device incoming).mismatches.filter
            (fun m => m.severity == "high")).map (fun m => m.field)))) ∧
    (_compare_heartbeat_with_registration devRooted incRooted).should_auto_lock = true ∧
    (_compare_heartbeat_with_registration devRooted incRooted).lock_reason =
      some "Device security compromised: is_device_rooted" ∧
    (_compare_heartbeat_with_registration devStorage incStorage).should_auto_lock = false ∧
    (_compare_heartbeat_with_registration devStorage incStorage).total_mismatches = 1 := by
  refine ⟨?_, ?_, by with_unfolding_all rfl, by with_unfolding_all rfl,
    by with_unfolding_all rfl, by with_unfolding_all rfl⟩
  · unfold _compare_heartbeat_with_registration
    dsimp only
    split
    · simp [emptyCompareResult]
    split
    · simp [emptyCompareResult]
    · simp
  · unfold _compare_heartbeat_with_registration
    dsimp only
    split
    · intro hcontra; simp [emptyCompareResult] at hcontra
    split
    · intro hcontra; simp [emptyCompareResult] at hcontra
    · intro hlock
      simp only [decide_eq_true_eq] at hlock
      rw [if_pos (by simpa using hlock)]

/-- C1 witness: the general lock-reason equation applied to the rooted-phone
fixture. -/
theorem c1_auto_lock_iff_high_witness :
    (_compare_heartbeat_with_registration devRooted incRooted).lock_reason =
      some ("Device security compromised: " ++ String.intercalate ", "
        (((_compare_heartbeat_with_registration devRooted incRooted).mismatches.filter
          (fun m => m.severity == "high")).map (fun m => m.field))) :=
  (c1_auto_lock_iff_high devRooted incRooted).2.1 (by with_unfolding_all rfl)

theorem stepField_skip (dt : String) (rd inc : List (String × Value))
    (acc : CompAcc) (f : String)
    (hdt : (dt == "desktop" || dt == "laptop") = true)
    (hf : MOBILE_ONLY_FIELDS.contains f = true ∨
      DESKTOP_SKIP_FIELDS.contains f = true) :
    stepField dt rd inc acc f = acc := by
  unfold stepField
  cases hinc : lookupVal inc f with
  | none => rfl
  | some current =>
    simp only []
    rcases hf with hf | hf
    · rw [if_pos (by rw [hdt, hf]; rfl)]
    · by_cases hm : MOBILE_ONLY_FIELDS.contains f = true
      · rw [if_pos (by rw [hdt, hm]; rfl)]
      · rw [if_neg (by rw [hdt, Bool.true_and]; exact hm),
          if_pos (by rw [hdt, hf]; rfl)]

theorem stepField_mismatch_fields (dt : String) (rd inc : List (String × Value))
    (acc : CompAcc) (f : String) :
    ∀ m ∈ (stepField dt rd inc acc f).mismatches,
      m ∈ acc.mismatches ∨ m.field = f := by
  intro m hm
  rcases stepField_shape dt rd inc acc f with ⟨dl, _, heq⟩ |
    ⟨sev, reason, r, c, _, _, heq⟩
  · rw [heq] at hm; exact Or.inl hm
  · rw [heq] at hm
    simp only [recordMismatch, List.mem_append, List.mem_singleton] at hm
    rcases hm with hm | hm
    · exact Or.inl hm
    · subst hm; exact Or.inr rfl

theorem stepField_detail_keys (dt : String) (rd inc : List (String × Value))
    (acc : CompAcc) (f : String) :
    ∀ kv ∈ (stepField dt rd inc acc f).details,
      kv ∈ acc.details ∨ kv.1 = f := by
  intro kv hkv
  rcases stepField_shape dt rd inc acc f with ⟨dl, hdl, heq⟩ |
    ⟨sev, reason, r, c, _, _, heq⟩
  · rw [heq] at hkv
    simp only [List.mem_append] at hkv
    rcases hkv with hkv | hkv
    · exact Or.inl hkv
    · exact Or.inr (hdl kv hkv)
  · rw [heq] at hkv
    simp only [recordMismatch, List.mem_append, List.mem_singleton] at hkv
    rcases hkv with hkv | hkv
    · exact Or.inl hkv
    · subst hkv; exact Or.inr rfl

theorem foldl_no_field (dt : String) (rd inc : List (String × Value)) (f : String)
    (hid : ∀ acc, stepField dt rd inc acc f = acc) :
    ∀ (l : List String) (acc : CompAcc),
      (∀ m ∈ acc.mismatches, m.field ≠ f) → (∀ kv ∈ acc.details, kv.1 ≠ f) →
      (∀ m ∈ (l.foldl (stepField dt rd inc) acc).mismatches, m.field ≠ f) ∧
      (∀ kv ∈ (l.foldl (stepField dt rd inc) acc).details, kv.1 ≠ f) := by
  intro l
  induction l with
  | nil => intro acc hm hd; exact ⟨hm, hd⟩
  | cons g t ih =>
    intro acc hm hd
    by_cases hg : g = f
    · subst hg
      simp only [List.foldl_cons, hid acc]
      exact ih acc hm hd
    · refine ih (stepField dt rd inc acc g) ?_ ?_
      · intro m hmem
        rcases stepField_mismatch_fields dt rd inc acc g m hmem with h | h
        · exact hm m h
        · rw [h]; exact hg
      · intro kv hkv
        rcases stepField_detail_keys dt rd inc acc g kv hkv with h | h
        · exact hd kv h
        · rw [h]; exact hg

theorem lookupKey_eq_none_of_keys_ne {α : Type} {d : List (String × α)}
    {f : String} (h : ∀ kv ∈ d, kv.1 ≠ f) : lookupKey d f = Option.none := by
  induction d with
  | nil => rfl
  | cons kv rest ih =>
    cases kv with
    | mk k v =>
      unfold lookupKey
      rw [if_neg (fun hb => h (k, v) (List.mem_cons_self _ _) (eq_of_beq hb))]
      exact ih (fun kv hkv => h kv (List.mem_cons_of_mem _ hkv))

/-- C7: on a desktop or laptop device, no mobile-only field (`device_imeis`
and the four security flags) and no desktop-skip field (`serial_number`,
`total_storage`, `is_custom_rom`) ever yields a mismatch entry or a
`comparison_details` entry, regardless of payload and baseline content. -/
theorem c7_desktop_field_gating (device : Device)
    (incoming : List (String × Value)) (f : String)
    (hdt : device.device_type = "desktop" ∨ device.device_type = "laptop")
    (hf : f ∈ MOBILE_ONLY_FIELDS ∨ f ∈ DESKTOP_SKIP_FIELDS) :
    (∀ m ∈ (_compare_heartbeat_with_registration device incoming).mismatches,
      m.field ≠ f) ∧
    lookupKey (_compare_heartbeat_with_registration device incoming).comparison_details
      f = Option.none := by
  have hdtb : (device.device_type == "desktop" || device.device_type == "laptop") = true := by
    rcases hdt with h | h <;> rw [h] <;> rfl
  have hfb : MOBILE_ONLY_FIELDS.contains f = true ∨
      DESKTOP_SKIP_FIELDS.contains f = true := by
    rcases hf with h | h
    · exact Or.inl (by simpa using h)
    · exact Or.inr (by simpa using h)
  unfold _compare_heartbeat_with_registration
  dsimp only
  split
  · exact ⟨by simp [emptyCompareResult], rfl⟩
  split
  · exact ⟨by simp [emptyCompareResult], rfl⟩
  · have hfold := foldl_no_field device.device_type
      (_get_registration_baseline device) incoming f
      (fun acc => stepField_skip device.device_type
        (_get_registration_baseline device) incoming acc f hdtb hfb)
      HEARTBEAT_TRACKED_FIELDS ⟨[], 0, 0, []⟩ (by simp) (by simp)
    exact ⟨hfold.1, lookupKey_eq_none_of_keys_ne hfold.2⟩

/-- C7 witness: the desktop fixture, whose heartbeat disagrees with its
baseline on `device_imeis`, records nothing for that field. -/
theorem c7_desktop_field_gating_witness :
    (∀ m ∈ (_compare_heartbeat_with_registration devDesktop incDesktop).mismatches,
      m.field ≠ "device_imeis") ∧
    lookupKey (_compare_heartbeat_with_registration devDesktop incDesktop).comparison_details
      "device_imeis" = Option.none :=
  c7_desktop_field_gating devDesktop incDesktop "device_imeis"
    (Or.inl rfl) (Or.inl (by decide))

theorem pyEq_of_falsy_truthy {a b : Value} (ha : pyTruthy a = false)
    (hb : pyTruthy b = true) : pyEq a b = false := by
  cases a <;> cases b <;>
    simp_all [pyTruthy, pyEq, pyEqList, pyEqDict] <;>
    first
    | omega
    | simp
    | rfl
    | (intro hx; simp_all)
    | (rename_i l; intro hx; exact hb (List.length_eq_zero.mp hx.symm))

theorem stepField_default_mismatch (dt : String) (rd inc : List (String × Value))
    (acc : CompAcc) (f : String) (cv : Value)
    (hcv : lookupVal inc f = some cv)
    (h1 : ((dt == "desktop" || dt == "laptop") &&
      MOBILE_ONLY_FIELDS.contains f) = false)
    (h2 : ((dt == "desktop" || dt == "laptop") &&
      DESKTOP_SKIP_FIELDS.contains f) = false)
    (h3 : (f == "device_imeis") = false)
    (h4 : (f == "installed_ram" && (dt == "desktop" || dt == "laptop")) = false)
    (h5 : pyEq (_normalize_for_comparison ((lookupVal rd f).getD Value.none))
      (_normalize_for_comparison cv) = false)
    (h6 : (!(pyTruthy (_normalize_for_comparison ((lookupVal rd f).getD Value.none))) &&
      !(pyTruthy (_normalize_for_comparison cv))) = false) :
    stepField dt rd inc acc f = recordMismatch acc f (_calculate_severity f)
      (_get_mismatch_reason f) ((lookupVal rd f).getD Value.none) cv := by
  unfold stepField
  rw [hcv]
  simp only []
  rw [if_neg (by rw [h1]; exact Bool.false_ne_true),
    if_neg (by rw [h2]; exact Bool.false_ne_true),
    if_neg (by rw [h3]; exact Bool.false_ne_true),
    if_neg (by rw [h4]; exact Bool.false_ne_true),
    if_neg (by rw [h5]; exact Bool.false_ne_true),
    if_neg (by rw [h6]; exact Bool.false_ne_true)]

/-- C10: when the baseline is established with real data and a tracked field
reaching the exact-match comparator (not `device_imeis`, not gated out by
device type, not `installed_ram` on desktop/laptop) is empty or absent in the
baseline while the heartbeat carries a value that is non-empty after
normalization, the comparison records a mismatch for that field. -/
theorem c10_one_sided_drift (device : Device) (incoming : List (String × Value))
    (f : String) (cv : Value)
    (hbase1 : (_get_registration_baseline device).isEmpty = false)
    (hbase2 : (_get_registration_baseline device).any
      (fun kv => hasActualData kv.2) = true)
    (htrack : f ∈ HEARTBEAT_TRACKED_FIELDS)
    (hnotimei : f ≠ "device_imeis")
    (hskip : (device.device_type = "desktop" ∨ device.device_type = "laptop") →
      ¬ f ∈ MOBILE_ONLY_FIELDS ∧ ¬ f ∈ DESKTOP_SKIP_FIELDS ∧ f ≠ "installed_ram")
    (hcv : lookupVal incoming f = some cv)
    (hcvt : pyTruthy (_normalize_for_comparison cv) = true)
    (hreg : pyTruthy (_normalize_for_comparison
      ((lookupVal (_get_registration_baseline device) f).getD Value.none)) = false) :
    ∃ m ∈ (_compare_heartbeat_with_registration device incoming).mismatches,
      m.field = f := by
  have h3 : (f == "device_imeis") = false := beq_eq_false_iff_ne.mpr hnotimei
  have h5 : pyEq (_normalize_for_comparison
      ((lookupVal (_get_registration_baseline device) f).getD Value.none))
      (_normalize_for_comparison cv) = false := pyEq_of_falsy_truthy hreg hcvt
  have h6 : (!(pyTruthy (_normalize_for_comparison
        ((lookupVal (_get_registration_baseline device) f).getD Value.none))) &&
      !(pyTruthy (_normalize_for_comparison cv))) = false := by
    rw [hcvt]; simp
  have hgate : ((device.device_type == "desktop" || device.device_type == "laptop") &&
        MOBILE_ONLY_FIELDS.contains f) = false ∧
      ((device.device_type == "desktop" || device.device_type == "laptop") &&
        DESKTOP_SKIP_FIELDS.contains f) = false ∧
      (f == "installed_ram" &&
        (device.device_type == "desktop" || device.device_type == "laptop")) = false := by
    by_cases hd : device.device_type = "desktop" ∨ device.device_type = "laptop"
    · obtain ⟨hm, hds, hram⟩ := hskip hd
      have hdtb : (device.device_type == "desktop" ||
          device.device_type == "laptop") = true := by
        rcases hd with h | h <;> rw [h] <;> rfl
      refine ⟨?_, ?_, ?_⟩
      · rw [hdtb, Bool.true_and]
        simpa using hm
      · rw [hdtb, Bool.true_and]
        simpa using hds
      · rw [beq_eq_false_iff_ne.mpr hram, Bool.false_and]
    · push_neg at hd
      have hdtb : (device.device_type == "desktop" ||
          device.device_type == "laptop") = false := by
        rw [beq_eq_false_iff_ne.mpr hd.1, beq_eq_false_iff_ne.mpr hd.2]
        rfl
      exact ⟨by rw [hdtb, Bool.false_and], by rw [hdtb, Bool.false_and],
        by rw [hdtb, Bool.and_false]⟩
  obtain ⟨l1, l2, hsplit⟩ := List.append_of_mem htrack
  unfold _compare_heartbeat_with_registration
  dsimp only
  rw [if_neg (by rw [hbase1]; exact Bool.false_ne_true),
    if_neg (by rw [hbase2]; simp)]
  dsimp only
  rw [hsplit, List.foldl_append, List.foldl_cons]
  rw [stepField_default_mismatch device.device_type
    (_get_registration_baseline device) incoming _ f cv hcv
    hgate.1 hgate.2.1 h3 hgate.2.2 h5 h6]
  refine ⟨⟨f, _calculate_severity f, _get_mismatch_reason f⟩, ?_, rfl⟩
  apply foldl_mismatches_mono
  simp [recordMismatch]

/-- C10 witness: a phone whose baseline lacks `total_storage` but whose
heartbeat reports one gets a mismatch recorded for that field. -/
theorem c10_one_sided_drift_witness :
    ∃ m ∈ (_compare_heartbeat_with_registration devOneSided incOneSided).mismatches,
      m.field = "total_storage" :=
  c10_one_sided_drift devOneSided incOneSided "total_storage" (Value.str "64GB")
    (by with_unfolding_all rfl) (by with_unfolding_all rfl)
    (by decide) (by decide)
    (fun hd => by rcases hd with h | h <;> exact absurd h (by decide))
    (by with_unfolding_all rfl) (by with_unfolding_all rfl)
    (by with_unfolding_all rfl)

/-- C3: the IMEI comparator skips when either side is falsy; mismatches
without warning when some current IMEI (lower-cased, trimmed) is absent from
the baseline; matches when all current IMEIs are known, with a warning
exactly when the count decreased; and behaves as specified on the
`["A","B"]` examples. -/
theorem c3_imei_subset_rule (r c : Value) :
    ((pyTruthy r = false ∨ pyTruthy c = false) →
      _compare_imei_lists r c = (true, Option.none)) ∧
    (pyTruthy r = true → pyTruthy c = true →
      ((∃ x ∈ (pyIter c).map (fun v => pyLower (pyStrip (pyStr v))),
          ¬ x ∈ (pyIter r).map (fun v => pyLower (pyStrip (pyStr v)))) →
        _compare_imei_lists r c = (false, Option.none)) ∧
      ((∀ x ∈ (pyIter c).map (fun v => pyLower (pyStrip (pyStr v))),
          x ∈ (pyIter r).map (fun v => pyLower (pyStrip (pyStr v)))) →
        (_compare_imei_lists r c).1 = true ∧
        ((_compare_imei_lists r c).2.isSome = true ↔
          ((pyIter c).map (fun v => pyLower (pyStrip (pyStr v)))).length <
          ((pyIter r).map (fun v => pyLower (pyStrip (pyStr v)))).length))) ∧
    _compare_imei_lists (.list [.str "A", .str "B"]) (.list [.str "A", .str "B"]) =
      (true, Option.none) ∧
    ((_compare_imei_lists (.list [.str "A", .str "B"]) (.list [.str "A"])).1 = true ∧
      (_compare_imei_lists (.list [.str "A", .str "B"]) (.list [.str "A"])).2.isSome =
        true) ∧
    _compare_imei_lists (.list [.str "A", .str "B"]) (.list [.str "A", .str "C"]) =
      (false, Option.none) := by
  refine ⟨?_, ?_, by with_unfolding_all rfl,
    ⟨by with_unfolding_all rfl, by with_unfolding_all rfl⟩, by with_unfolding_all rfl⟩
  · intro h
    unfold _compare_imei_lists
    rcases h with h | h <;> rw [if_pos (by rw [h]; simp)]
  · intro hr hc
    unfold _compare_imei_lists
    rw [if_neg (by rw [hr, hc]; simp)]
    constructor
    · intro ⟨x, hx, hnotin⟩
      have hfail : ((pyIter c).map (fun v => pyLower (pyStrip (pyStr v)))).all
          (fun y => ((pyIter r).map (fun v => pyLower (pyStrip (pyStr v)))).contains y) =
          false := by
        rw [List.all_eq_false]
        exact ⟨x, hx, by simpa using hnotin⟩
      rw [if_pos (by rw [hfail]; rfl)]
    · intro hall
      have hok : ((pyIter c).map (fun v => pyLower (pyStrip (pyStr v)))).all
          (fun y => ((pyIter r).map (fun v => pyLower (pyStrip (pyStr v)))).contains y) =
          true := by
        rw [List.all_eq_true]
        intro x hx
        simpa using hall x hx
      rw [if_neg (by rw [hok]; simp)]
      by_cases hlen : ((pyIter c).map (fun v => pyLower (pyStrip (pyStr v)))).length <
          ((pyIter r).map (fun v => pyLower (pyStrip (pyStr v)))).length
      · rw [if_pos hlen]
        exact ⟨rfl, by simpa using hlen⟩
      · rw [if_neg hlen]
        exact ⟨rfl, by simpa using hlen⟩

/-- C3 witness: the skip clause applied to an absent baseline list. -/
theorem c3_imei_subset_rule_witness :
    _compare_imei_lists Value.none (Value.list [Value.str "A"]) =
      (true, Option.none) :=
  (c3_imei_subset_rule Value.none (Value.list [Value.str "A"])).1 (Or.inl rfl)

theorem pyTruthy_of_extract_some {v : Value} {q : Rat}
    (h : extract_ram_gb v = some q) : pyTruthy v = true := by
  cases v with
  | str s =>
    have hne : s.data ≠ [] := by
      intro hd
      rw [show extract_ram_gb (Value.str s) = (searchRam s.data).map parseRamGroup
        from rfl, hd] at h
      simp [searchRam] at h
    have hs : s ≠ "" := fun he => hne (by rw [he])
    simp [pyTruthy, hs]
  | none => simp [extract_ram_gb] at h
  | bool b => simp [extract_ram_gb] at h
  | int n => simp [extract_ram_gb] at h
  | list xs => simp [extract_ram_gb] at h
  | tup xs => simp [extract_ram_gb] at h
  | dict kvs => simp [extract_ram_gb] at h

/-- C4: the desktop/laptop RAM comparator skips whenever either side fails
the numeric-GB extraction (which covers falsy inputs), mismatches exactly
when the extracted current value is below the extracted baseline minus 1,
meets the specified boundary examples, and its mismatch surfaces as a
HIGH-severity entry on the laptop fixture. -/
theorem c4_ram_tolerance (r c : Value) :
    ((extract_ram_gb r = Option.none ∨ extract_ram_gb c = Option.none) →
      _compare_ram_with_tolerance r c = (true, Option.none)) ∧
    (∀ rg cg : Rat, extract_ram_gb r = some rg → extract_ram_gb c = some cg →
      ((_compare_ram_with_tolerance r c).1 = false ↔ cg < rg - 1)) ∧
    _compare_ram_with_tolerance (.str "16 GB") (.str "15 GB") = (true, Option.none) ∧
    (_compare_ram_with_tolerance (.str "16 GB") (.str "14.9 GB")).1 = false ∧
    _compare_ram_with_tolerance (.str "8 GB") (.str "7.5 GB") = (true, Option.none) ∧
    (_compare_ram_with_tolerance (.str "8 GB") (.str "6.9 GB")).1 = false ∧
    (_compare_heartbeat_with_registration devLaptopRam incLaptopRam).mismatches.map
      (fun m => (m.field, m.severity)) = [("installed_ram", "high")] := by
  refine ⟨?_, ?_, by with_unfolding_all rfl, by with_unfolding_all rfl,
    by with_unfolding_all rfl, by with_unfolding_all rfl, by with_unfolding_all rfl⟩
  · intro h
    unfold _compare_ram_with_tolerance
    by_cases ht : (!(pyTruthy r) || !(pyTruthy c)) = true
    · rw [if_pos ht]
    · rw [if_neg ht]
      rcases h with h | h
      · rw [h]
      · rw [h]
        cases extract_ram_gb r <;> rfl
  · intro rg cg hr hc
    unfold _compare_ram_with_tolerance
    rw [if_neg (by rw [pyTruthy_of_extract_some hr, pyTruthy_of_extract_some hc]; simp),
      hr, hc]
    dsimp only
    by_cases hlt : cg < rg - 1
    · rw [if_pos hlt]
      simpa using hlt
    · rw [if_neg hlt]
      simpa using hlt

/-- C4 witness: the mismatch criterion applied to a 16 GB baseline and a
2 GB current value. -/
theorem c4_ram_tolerance_witness :
    (_compare_ram_with_tolerance (Value.str "16GB") (Value.str "2GB")).1 = false :=
  ((c4_ram_tolerance (Value.str "16GB") (Value.str "2GB")).2.1 16 2
    (by with_unfolding_all rfl) (by with_unfolding_all rfl)).mpr (by norm_num)

/-- C6 counterexample: for baseline `["111","222"]` and current `["111"]` the
attached warning is exactly the count-based text, and the missing baseline
IMEI `222` appears nowhere in it — the warning does not enumerate the
missing IMEIs. -/
theorem c6_warning_counterexample :
    (_compare_imei_lists (Value.list [Value.str "111", Value.str "222"])
      (Value.list [Value.str "111"])).2 =
      some "⚠️ SECURITY WARNING: IMEI count decreased from 2 to 1. Missing 1 IMEI(s). This could be legitimate SIM removal OR an attempt to hide SIM swap. Baseline had 2 IMEI(s), now reporting 1. Manual review recommended." ∧
    strContainsSub "⚠️ SECURITY WARNING: IMEI count decreased from 2 to 1. Missing 1 IMEI(s). This could be legitimate SIM removal OR an attempt to hide SIM swap. Baseline had 2 IMEI(s), now reporting 1. Manual review recommended."
      "222" = false :=
  ⟨by with_unfolding_all rfl, by decide⟩

/-- C6 (amended): when the IMEI comparator matches with a decreased count,
the warning names the baseline count, the current count and the number
missing — but only the counts; the missing IMEIs themselves are not
enumerated in the text. -/
theorem c6_warning_names_counts (r c : Value)
    (hr : pyTruthy r = true) (hc : pyTruthy c = true)
    (hall : ∀ x ∈ (pyIter c).map (fun v => pyLower (pyStrip (pyStr v))),
      x ∈ (pyIter r).map (fun v => pyLower (pyStrip (pyStr v))))
    (hlen : ((pyIter c).map (fun v => pyLower (pyStrip (pyStr v)))).length <
      ((pyIter r).map (fun v => pyLower (pyStrip (pyStr v)))).length) :
    _compare_imei_lists r c = (true, some ("⚠️ SECURITY WARNING: IMEI count decreased from " ++
      toString ((pyIter r).map (fun v => pyLower (pyStrip (pyStr v)))).length ++
      " to " ++
      toString ((pyIter c).map (fun v => pyLower (pyStrip (pyStr v)))).length ++
      ". Missing " ++
      toString (((pyIter r).map (fun v => pyLower (pyStrip (pyStr v)))).length -
        ((pyIter c).map (fun v => pyLower (pyStrip (pyStr v)))).length) ++
      " IMEI(s). This could be legitimate SIM removal OR an attempt to hide SIM swap. Baseline had " ++
      toString ((pyIter r).map (fun v => pyLower (pyStrip (pyStr v)))).length ++
      " IMEI(s), now reporting " ++
      toString ((pyIter c).map (fun v => pyLower (pyStrip (pyStr v)))).length ++
      ". Manual review recommended.")) := by
  unfold _compare_imei_lists
  rw [if_neg (by rw [hr, hc]; simp)]
  have hok : ((pyIter c).map (fun v => pyLower (pyStrip (pyStr v)))).all
      (fun y => ((pyIter r).map (fun v => pyLower (pyStrip (pyStr v)))).contains y) =
      true := by
    rw [List.all_eq_true]
    intro x hx
    simpa using hall x hx
  rw [if_neg (by rw [hok]; simp), if_pos hlen]

/-- C6 witness: the amended warning shape on baseline `["A","B"]`, current
`["A"]`. -/
theorem c6_warning_names_counts_witness :
    _compare_imei_lists (Value.list [Value.str "A", Value.str "B"])
      (Value.list [Value.str "A"]) = (true,
      some "⚠️ SECURITY WARNING: IMEI count decreased from 2 to 1. Missing 1 IMEI(s). This could be legitimate SIM removal OR an attempt to hide SIM swap. Baseline had 2 IMEI(s), now reporting 1. Manual review recommended.") := by
  have h := c6_warning_names_counts (Value.list [Value.str "A", Value.str "B"])
    (Value.list [Value.str "A"]) rfl rfl
    (by with_unfolding_all decide) (by with_unfolding_all decide)
  rw [h]
  with_unfolding_all rfl

/-- C5 counterexample: on the laptop fixture the single mismatch entry's
reason embeds both the raw baseline value `16.0GB` and the raw current value
`10.0GB`, so mismatch reasons are not value-free. -/
theorem c5_reason_leak_counterexample :
    (_compare_heartbeat_with_registration devLaptopRam incLaptopRam).mismatches.map
      (fun m => m.reason) =
      ["RAM decreased significantly: registered 16.0GB, current 10.0GB (minimum allowed: 15.0GB)"] ∧
    strContainsSub "RAM decreased significantly: registered 16.0GB, current 10.0GB (minimum allowed: 15.0GB)"
      "10.0GB" = true ∧
    strContainsSub "RAM decreased significantly: registered 16.0GB, current 10.0GB (minimum allowed: 15.0GB)"
      "16.0GB" = true :=
  ⟨by with_unfolding_all rfl, by decide, by decide⟩

/-- C5 (amended): every mismatch entry for a field other than
`installed_ram` carries the fixed, value-free reason looked up by field
name; only the desktop/laptop RAM-tolerance path embeds the parsed values. -/
theorem c5_reason_fixed_lookup (device : Device) (incoming : List (String × Value)) :
    ∀ m ∈ (_compare_heartbeat_with_registration device incoming).mismatches,
      m.field ≠ "installed_ram" → m.reason = _get_mismatch_reason m.field := by
  unfold _compare_heartbeat_with_registration
  dsimp only
  split
  · intro m hm; simp [emptyCompareResult] at hm
  split
  · intro m hm; simp [emptyCompareResult] at hm
  · have hinv := foldl_accInv device.device_type (_get_registration_baseline device)
      incoming HEARTBEAT_TRACKED_FIELDS ⟨[], 0, 0, []⟩ ⟨rfl, by simp [accInv]⟩
    exact fun m hm hne => (hinv.2 m hm).2 hne

/-- C5 witness: the fixed-reason equation applied to the rooted-phone
fixture's mismatch. -/
theorem c5_reason_fixed_lookup_witness :
    (Mismatch.mk "is_device_rooted" "high" "Device rooting status changed").reason =
      _get_mismatch_reason
        (Mismatch.mk "is_device_rooted" "high" "Device rooting status changed").field :=
  c5_reason_fixed_lookup devRooted incRooted
    (Mismatch.mk "is_device_rooted" "high" "Device rooting status changed")
    (by with_unfolding_all decide) (by decide)

theorem char_toNat_ofNat {n : Nat} (h : n < 55296) : (Char.ofNat n).toNat = n := by
  have hv : n.isValidChar := Or.inl h
  simp only [Char.ofNat, hv, dif_pos, Char.ofNatAux, Char.toNat, UInt32.toNat]
  simp

theorem char_toLower_toLower (c : Char) : c.toLower.toLower = c.toLower := by
  simp only [Char.toLower, Char.toNat]
  by_cases h : c.val.toNat ≥ 65 ∧ c.val.toNat ≤ 90
  · rw [if_pos h]
    have h32 : (Char.ofNat (c.val.toNat + 32)).toNat = c.val.toNat + 32 :=
      char_toNat_ofNat (by omega)
    rw [Char.toNat] at h32
    rw [if_neg]
    omega
  · rw [if_neg h, if_neg h]

theorem char_toUpper_toLower (c : Char) : c.toLower.toUpper = c.toUpper := by
  simp only [Char.toLower, Char.toUpper, Char.toNat]
  by_cases h : c.val.toNat ≥ 65 ∧ c.val.toNat ≤ 90
  · rw [if_pos h, if_neg (show ¬(c.val.toNat ≥ 97 ∧ c.val.toNat ≤ 122) by omega)]
    have h32 : (Char.ofNat (c.val.toNat + 32)).toNat = c.val.toNat + 32 :=
      char_toNat_ofNat (by omega)
    rw [Char.toNat] at h32
    rw [if_pos (by omega), h32]
    have e : c.val.toNat + 32 - 32 = c.val.toNat := by omega
    rw [e]
    have := Char.ofNat_toNat c
    rw [Char.toNat] at this
    exact this
  · rw [if_neg h]

theorem char_toLower_eq_space_iff (c : Char) : (c.toLower = ' ') ↔ c = ' ' := by
  simp only [Char.toLower, Char.toNat]
  by_cases h : c.val.toNat ≥ 65 ∧ c.val.toNat ≤ 90
  · rw [if_pos h]
    constructor
    · intro he
      have := congrArg Char.toNat he
      rw [char_toNat_ofNat (by omega)] at this
      have h2 : (' ' : Char).toNat = 32 := rfl
      rw [h2] at this
      omega
    · intro he
      have := congrArg Char.toNat he
      have h2 : (' ' : Char).toNat = 32 := rfl
      rw [h2, Char.toNat] at this
      omega
  · rw [if_neg h]

theorem char_toUpper_eq_space_iff (c : Char) : (c.toUpper = ' ') ↔ c = ' ' := by
  simp only [Char.toUpper, Char.toNat]
  by_cases h : c.val.toNat ≥ 97 ∧ c.val.toNat ≤ 122
  · rw [if_pos h]
    constructor
    · intro he
      have := congrArg Char.toNat he
      rw [char_toNat_ofNat (by omega)] at this
      have h2 : (' ' : Char).toNat = 32 := rfl
      rw [h2] at this
      omega
    · intro he
      have := congrArg Char.toNat he
      have h2 : (' ' : Char).toNat = 32 := rfl
      rw [h2, Char.toNat] at this
      omega
  · rw [if_neg h]

theorem isPySpace_toLower (c : Char) : isPySpace c.toLower = isPySpace c := by
  simp only [isPySpace, Char.toLower, Char.toNat]
  by_cases h : c.val.toNat ≥ 65 ∧ c.val.toNat ≤ 90
  · rw [if_pos h]
    have h32 : (Char.ofNat (c.val.toNat + 32)).toNat = c.val.toNat + 32 :=
      char_toNat_ofNat (by omega)
    rw [Char.toNat] at h32
    rw [h32]
    have hl : ∀ x y : Nat, x ≠ y → (x == y) = false := fun x y hxy => by
      simpa using hxy
    rw [hl _ 32 (by omega), hl _ 9 (by omega), hl _ 10 (by omega),
      hl _ 13 (by omega), hl _ 11 (by omega), hl _ 12 (by omega),
      hl _ 32 (by omega), hl _ 9 (by omega), hl _ 10 (by omega),
      hl _ 13 (by omega), hl _ 11 (by omega), hl _ 12 (by omega)]
  · rw [if_neg h]

theorem isPySpace_toUpper (c : Char) : isPySpace c.toUpper = isPySpace c := by
  simp only [isPySpace, Char.toUpper, Char.toNat]
  by_cases h : c.val.toNat ≥ 97 ∧ c.val.toNat ≤ 122
  · rw [if_pos h]
    have h32 : (Char.ofNat (c.val.toNat - 32)).toNat = c.val.toNat - 32 :=
      char_toNat_ofNat (by omega)
    rw [Char.toNat] at h32
    rw [h32]
    have hl : ∀ x y : Nat, x ≠ y → (x == y) = false := fun x y hxy => by
      simpa using hxy
    rw [hl _ 32 (by omega), hl _ 9 (by omega), hl _ 10 (by omega),
      hl _ 13 (by omega), hl _ 11 (by omega), hl _ 12 (by omega),
      hl _ 32 (by omega), hl _ 9 (by omega), hl _ 10 (by omega),
      hl _ 13 (by omega), hl _ 11 (by omega), hl _ 12 (by omega)]
  · rw [if_neg h]

theorem dropWhile_head_false {α : Type} {p : α → Bool} :
    ∀ {l : List α} {c : α} {t : List α}, l.dropWhile p = c :: t → p c = false := by
  intro l
  induction l with
  | nil => intro c t h; simp [List.dropWhile] at h
  | cons a rest ih =>
    intro c t h
    rw [List.dropWhile_cons] at h
    by_cases hp : p a = true
    · rw [if_pos hp] at h
      exact ih h
    · rw [if_neg hp] at h
      cases h
      exact Bool.not_eq_true _ |>.mp hp

theorem dropWhile_dropWhile {α : Type} (p : α → Bool) (l : List α) :
    (l.dropWhile p).dropWhile p = l.dropWhile p := by
  cases hd : l.dropWhile p with
  | nil => rfl
  | cons c t =>
    rw [List.dropWhile_cons, if_neg]
    rw [dropWhile_head_false hd]
    exact Bool.false_ne_true

theorem dropWhile_eq_self_of_prefix {α : Type} {p : α → Bool} {x l : List α}
    (h : x <+: l.dropWhile p) : x.dropWhile p = x := by
  cases x with
  | nil => rfl
  | cons c t =>
    obtain ⟨rest, hrest⟩ := h
    have hd : l.dropWhile p = c :: (t ++ rest) := by rw [← hrest]; rfl
    rw [List.dropWhile_cons,
      if_neg (by rw [dropWhile_head_false hd]; exact Bool.false_ne_true)]

theorem pyStripL_prefix_of_dropWhile (l : List Char) :
    pyStripL l <+: l.dropWhile isPySpace := by
  have h : ((l.dropWhile isPySpace).reverse.dropWhile isPySpace) <:+
      (l.dropWhile isPySpace).reverse := List.dropWhile_suffix _
  haveI := List.reverse_prefix.mpr h
  rwa [List.reverse_reverse] at this

theorem pyStripL_within (l : List Char) : pyStripL l <:+: l :=
  (pyStripL_prefix_of_dropWhile l).isInfix.trans (List.dropWhile_suffix _).isInfix

theorem pyStripL_idem (l : List Char) : pyStripL (pyStripL l) = pyStripL l := by
  have h1 : (pyStripL l).dropWhile isPySpace = pyStripL l :=
    dropWhile_eq_self_of_prefix (pyStripL_prefix_of_dropWhile l)
  show ((((pyStripL l).dropWhile isPySpace).reverse).dropWhile isPySpace).reverse =
    pyStripL l
  rw [h1]
  have h2 : (pyStripL l).reverse =
      ((l.dropWhile isPySpace).reverse).dropWhile isPySpace := by
    unfold pyStripL
    rw [List.reverse_reverse]
  rw [h2, dropWhile_dropWhile, ← h2, List.reverse_reverse]

theorem pyStripL_map {f : Char → Char} (hf : ∀ c, isPySpace (f c) = isPySpace c)
    (l : List Char) : pyStripL (l.map f) = (pyStripL l).map f := by
  have hpf : (isPySpace ∘ f) = isPySpace := funext hf
  unfold pyStripL
  rw [List.dropWhile_map, hpf, ← List.map_reverse, List.dropWhile_map, hpf,
    ← List.map_reverse]

theorem removeSpacesL_map {f : Char → Char}
    (hf : ∀ c : Char, (f c == ' ') = (c == ' ')) (l : List Char) :
    removeSpacesL (l.map f) = (removeSpacesL l).map f := by
  unfold removeSpacesL
  have hpf : ((fun c => !(c == ' ')) ∘ f) = (fun c : Char => !(c == ' ')) := by
    funext c
    simp only [Function.comp_apply, hf c]
  rw [List.filter_map, hpf]

theorem pyLowerL_idem (l : List Char) : pyLowerL (pyLowerL l) = pyLowerL l := by
  unfold pyLowerL
  rw [List.map_map]
  congr 1
  funext c
  exact char_toLower_toLower c

theorem pyUpperL_lowerL (l : List Char) : pyUpperL (pyLowerL l) = pyUpperL l := by
  unfold pyUpperL pyLowerL
  rw [List.map_map]
  congr 1
  funext c
  exact char_toUpper_toLower c

theorem strContainsSub_iff (a b : String) :
    strContainsSub a b = true ↔ b.data <:+: a.data := by
  unfold strContainsSub
  rw [List.any_eq_true]
  constructor
  · intro ⟨t, ht, hp⟩
    rw [List.mem_tails] at ht
    rw [List.isPrefixOf_iff_prefix] at hp
    exact List.infix_iff_prefix_suffix.mpr ⟨t, hp, ht⟩
  · intro h
    obtain ⟨t, hp, ht⟩ := List.infix_iff_prefix_suffix.mp h
    exact ⟨t, (List.mem_tails _ _).mpr ht, List.isPrefixOf_iff_prefix.mpr hp⟩

theorem infix_filter {l₁ l₂ : List Char} {p : Char → Bool} (h : l₁ <:+: l₂)
    (hall : ∀ c ∈ l₁, p c = true) : l₁ <:+: l₂.filter p := by
  obtain ⟨s, t, hst⟩ := h
  refine ⟨s.filter p, t.filter p, ?_⟩
  rw [← hst, List.filter_append, List.filter_append, List.filter_eq_self.mpr hall]

theorem hasUnitToken_iff (s : String) :
    hasUnitToken s = true ↔ ∃ u ∈ (["GB", "MB", "TB", "KB"] : List String),
      u.data <:+: pyUpperL s.data := by
  unfold hasUnitToken
  rw [List.any_eq_true]
  constructor
  · intro ⟨u, hu, h⟩
    exact ⟨u, hu, (strContainsSub_iff (pyUpper s) u).mp h⟩
  · intro ⟨u, hu, h⟩
    exact ⟨u, hu, (strContainsSub_iff (pyUpper s) u).mpr h⟩

theorem units_no_space : ∀ u ∈ (["GB", "MB", "TB", "KB"] : List String),
    ∀ c ∈ u.data, (!(c == ' ')) = true := by decide

theorem toUpper_beq_space (c : Char) : (Char.toUpper c == ' ') = (c == ' ') := by
  by_cases h : c = ' '
  · subst h; rfl
  · rw [beq_eq_false_iff_ne.mpr h,
      beq_eq_false_iff_ne.mpr (fun he => h ((char_toUpper_eq_space_iff c).mp he))]

theorem toLower_beq_space (c : Char) : (Char.toLower c == ' ') = (c == ' ') := by
  by_cases h : c = ' '
  · subst h; rfl
  · rw [beq_eq_false_iff_ne.mpr h,
      beq_eq_false_iff_ne.mpr (fun he => h ((char_toLower_eq_space_iff c).mp he))]

theorem hasUnitToken_norm_unit (s : String) (hu : hasUnitToken s = true) :
    hasUnitToken (pyLower (removeSpaces s)) = true := by
  rw [hasUnitToken_iff] at hu ⊢
  obtain ⟨u, hmem, hinf⟩ := hu
  refine ⟨u, hmem, ?_⟩
  show u.data <:+: pyUpperL (pyLowerL (removeSpacesL s.data))
  rw [pyUpperL_lowerL]
  rw [show pyUpperL (removeSpacesL s.data) = removeSpacesL (pyUpperL s.data) from
    (removeSpacesL_map toUpper_beq_space s.data).symm]
  exact infix_filter hinf (units_no_space u hmem)

theorem removeSpaces_stable (s : String) :
    removeSpacesL (pyLowerL (removeSpacesL s.data)) =
    pyLowerL (removeSpacesL s.data) := by
  apply List.filter_eq_self.mpr
  intro c hc
  rw [pyLowerL, List.mem_map] at hc
  obtain ⟨d, hd, hdc⟩ := hc
  rw [removeSpacesL, List.mem_filter] at hd
  rw [← hdc, toLower_beq_space]
  exact hd.2

theorem hasUnitToken_strip_lower (s : String) (hu : ¬ hasUnitToken s = true) :
    ¬ hasUnitToken (pyStrip (pyLower s)) = true := by
  intro htrue
  apply hu
  rw [hasUnitToken_iff] at htrue ⊢
  obtain ⟨u, hmem, hinf⟩ := htrue
  refine ⟨u, hmem, ?_⟩
  have e1 : pyUpperL (pyStripL (pyLowerL s.data)) =
      pyStripL (pyUpperL s.data) := by
    rw [show pyUpperL (pyStripL (pyLowerL s.data)) =
        (pyStripL (pyLowerL s.data)).map Char.toUpper from rfl,
      ← pyStripL_map isPySpace_toUpper,
      show (pyLowerL s.data).map Char.toUpper = pyUpperL (pyLowerL s.data) from rfl,
      pyUpperL_lowerL]
  have hinf2 : u.data <:+: pyStripL (pyUpperL s.data) := by
    rw [← e1]
    exact hinf
  exact hinf2.trans (pyStripL_within _)

theorem lower_strip_stable (s : String) :
    pyLowerL (pyStripL (pyLowerL s.data)) = pyStripL (pyLowerL s.data) := by
  rw [show pyLowerL (pyStripL (pyLowerL s.data)) =
      (pyStripL (pyLowerL s.data)).map Char.toLower from rfl,
    ← pyStripL_map isPySpace_toLower,
    show (pyLowerL s.data).map Char.toLower = pyLowerL (pyLowerL s.data) from rfl,
    pyLowerL_idem]

theorem norm_idem_str (s : String) :
    _normalize_for_comparison (_normalize_for_comparison (Value.str s)) =
    _normalize_for_comparison (Value.str s) := by
  by_cases hu : hasUnitToken s = true
  · have h1 : _normalize_for_comparison (Value.str s) =
        Value.str (pyLower (removeSpaces s)) := by
      simp only [_normalize_for_comparison, if_pos hu]
    rw [h1]
    have h2 : _normalize_for_comparison (Value.str (pyLower (removeSpaces s))) =
        Value.str (pyLower (removeSpaces (pyLower (removeSpaces s)))) := by
      simp only [_normalize_for_comparison,
        if_pos (hasUnitToken_norm_unit s hu)]
    rw [h2]
    congr 1
    show String.mk (pyLowerL (removeSpacesL (pyLowerL (removeSpacesL s.data)))) =
      String.mk (pyLowerL (removeSpacesL s.data))
    rw [removeSpaces_stable, pyLowerL_idem]
  · have h1 : _normalize_for_comparison (Value.str s) =
        Value.str (pyStrip (pyLower s)) := by
      simp only [_normalize_for_comparison, if_neg hu]
    rw [h1]
    have h2 : _normalize_for_comparison (Value.str (pyStrip (pyLower s))) =
        Value.str (pyStrip (pyLower (pyStrip (pyLower s)))) := by
      simp only [_normalize_for_comparison,
        if_neg (hasUnitToken_strip_lower s hu)]
    rw [h2]
    congr 1
    show String.mk (pyStripL (pyLowerL (pyStripL (pyLowerL s.data)))) =
      String.mk (pyStripL (pyLowerL s.data))
    rw [lower_strip_stable, pyStripL_idem]

mutual
theorem norm_idem : ∀ (v : Value),
    _normalize_for_comparison (_normalize_for_comparison v) =
    _normalize_for_comparison v
  | .none => rfl
  | .bool _ => rfl
  | .int _ => rfl
  | .tup _ => rfl
  | .list _ => rfl
  | .str s => norm_idem_str s
  | .dict kvs => congrArg Value.dict (normDict_idem kvs)

theorem normDict_idem : ∀ (kvs : List (String × Value)),
    normalizeDictVals (normalizeDictVals kvs) = normalizeDictVals kvs
  | [] => rfl
  | (k, v) :: rest => by
    show (k, _normalize_for_comparison (_normalize_for_comparison v)) ::
        normalizeDictVals (normalizeDictVals rest) =
      (k, _normalize_for_comparison v) :: normalizeDictVals rest
    rw [norm_idem v, normDict_idem rest]
end

/-- C8: the comparison value normalizer is idempotent on every value shape
(`None`, strings with or without a unit token, lists, tuples, mappings,
booleans, numbers): normalizing an already-normalized value is a no-op. -/
theorem c8_normalize_idempotent (v : Value) :
    _normalize_for_comparison (_normalize_for_comparison v) =
    _normalize_for_comparison v :=
  norm_idem v
